import Mathlib

/-!
Shallow embedding of the OCR orchestration core of `japanese-pdf-ocr.py`.

The program drives OCR of a PDF either synchronously (one remote call per
rasterized page, `run_ocr_process`, else-branch) or asynchronously (upload to
object storage, batch annotate, poll, collect result blobs, same function,
then-branch), reassembles the per-page text, and writes it to an output file.
External capabilities (rasterizer, remote OCR client, blob store, filesystem)
are modelled as environment fields holding either a value or the message of
the exception the corresponding Python call would raise.  The save of the
output file is modelled as truncate-then-write, as `open(path, "w")` behaves:
`open` either raises leaving the file untouched or truncates it, and the
subsequent `write` either completes or raises leaving only the flushed prefix
of the text.  Progress-bar values
`progress_var.set(...)` are collected as a list of rationals, in the order the
source sets them; the initial `0` set by `start_ocr` is included.  Status
labels mirror the exact f-strings of the source.
-/

namespace PdfOcr

/-- Section rendered for one page, mirroring the source append
    `full_text += f"--- ページ ... ---\n...\n\n"` (lines 560 and 609):
    a delimiter line with the 1-based page number, the text, a blank line. -/
def pageSection (n : Nat) (text : String) : String :=
  "--- ページ " ++ toString n ++ " ---\n" ++ text ++ "\n\n"

/-- Concatenation of page sections numbered consecutively starting at `k`. -/
def sectionsFrom : Nat → List String → String
  | _, [] => ""
  | k, t :: ts => pageSection k t ++ sectionsFrom (k + 1) ts

/-- Terminal status string of a failed run, from
    `f"エラーが発生しました: ..."` (line 630): the single catch-all handler
    formats every exception the same way. -/
def statusFail (msg : String) : String := "エラーが発生しました: " ++ msg

/-- Terminal status string of a completed run (line 626). -/
def statusDone (outPath : String) : String :=
  "完了! テキストを " ++ outPath ++ " に保存しました。"

/-- DPI of the preview rasterization pass, `pdf2image.convert_from_path(pdf_path, dpi=100)`
    in `load_pdf_preview` (line 214). -/
def previewDpi : Nat := 100

/-- DPI of the OCR rasterization pass, `pdf2image.convert_from_path(pdf_path, dpi=300)`
    in the synchronous branch of `run_ocr_process` (line 572). -/
def ocrDpi : Nat := 300

/-- The `batch_size=1` passed to `vision.OutputConfig` (line 508): the remote
    service is asked to write one page per result blob. -/
def visionBatchSize : Nat := 1

/-- Suffix tested on result blob names, `blob.name.endswith(".json")` (line 549). -/
def jsonSuffix : String := ".json"

/-- The Python test `s.endswith(suf)`: the characters of `suf` are a suffix
    of the characters of `s`. -/
def strEndsWith (s suf : String) : Bool := suf.data.isSuffixOf s.data

/-- Observable outcome of one run of `run_ocr_process` (plus the `progress_var.set(0)`
    performed by `start_ocr` just before spawning the thread):
    the progress values in the order they were set, the final status label,
    the final value of `self.extracted_text`, the content of the output file
    after the run (`none` = absent), whether the run ended in the exception
    handler, the 1-based page numbers sent to the remote client in order
    (synchronous path only), and the `(path, dpi)` rasterization calls made. -/
structure RunOutcome where
  progress : List ℚ
  status : String
  extracted : String
  fileContent : Option String
  failed : Bool
  sent : List Nat
  rasterTrace : List (String × Nat)
deriving DecidableEq

/-- Behaviour of the save step `open(output_path, "w")` followed by
    `f.write(...)` (lines 618-619).  `open` in mode `w` either raises (missing
    directory, permission, path is a directory) leaving the file untouched, or
    succeeds and immediately truncates the file; a subsequent raise from
    `write` (disk full, encoding error) leaves whatever portion of the text
    was flushed before the raise — `written` characters — so a mid-write
    failure leaves a truncated or partial file, not the prior content. -/
inductive WriteStep where
  | openRaises (msg : String)
  | writeRaises (msg : String) (written : Nat)
  | success
deriving DecidableEq

/-- The first `n` characters of `s`: the portion of the output text flushed
    before a mid-write raise. -/
def strTake (s : String) (n : Nat) : String := ⟨s.data.take n⟩

/-- Environment of a synchronous run: the PDF path, the rasterizer capability,
    the remote per-image extraction call (`document_text_detection` either
    returns a response whose `full_text_annotation.text` is a string — an
    error response carries the empty string — or raises with a message), the
    behaviour of the truncate-then-write save step, and the preview images
    held in `self.page_images` (present in the object state, untouched by the
    OCR run). -/
structure SyncEnv (Image : Type) where
  pdfPath : String
  rasterize : String → Nat → List Image
  extract : Image → Except String String
  writeRes : WriteStep
  previewImages : List Image

/-- Intermediate result of the per-page loop (source lines 578-609). -/
structure LoopOut where
  prog : List ℚ
  sent : List Nat
  result : Except String String

/-- The per-page loop `for i, image in enumerate(images)`: before each remote
    call the source sets `progress = (i / total_pages) * 100`; the call either
    returns the page text, which is appended as a section numbered `i+1`, or
    raises, aborting the loop. -/
def syncLoop {Image : Type} (extract : Image → Except String String) :
    List Image → Nat → Nat → String → LoopOut
  | [], _, _, acc => ⟨[], [], .ok acc⟩
  | img :: rest, i, total, acc =>
    let p : ℚ := (i : ℚ) / (total : ℚ) * 100
    match extract img with
    | .error m => ⟨[p], [i + 1], .error m⟩
    | .ok t =>
      let L := syncLoop extract rest (i + 1) total (acc ++ pageSection (i + 1) t)
      ⟨p :: L.prog, (i + 1) :: L.sent, L.result⟩

/-- Tail of `run_ocr_process` after the extraction phase (lines 613-631):
    on a raised extraction error the catch-all handler reports it and the file
    is untouched (the save step was never reached); otherwise progress goes to
    90 and the text is saved with the truncate-then-write behaviour of
    `WriteStep` — a raise from the save step also lands in the catch-all —
    then progress 100 and the completion status. -/
def mkSyncOutcome (pdfPath outPath : String) (fs0 : Option String)
    (writeRes : WriteStep) (L : LoopOut) : RunOutcome :=
  match L.result with
  | .error m =>
      ⟨(0 : ℚ) :: L.prog, statusFail m, "", fs0, true, L.sent, [(pdfPath, ocrDpi)]⟩
  | .ok fullText =>
    match writeRes with
    | .openRaises m =>
        ⟨(0 : ℚ) :: (L.prog ++ [(90 : ℚ)]), statusFail m, fullText, fs0, true,
          L.sent, [(pdfPath, ocrDpi)]⟩
    | .writeRaises m n =>
        ⟨(0 : ℚ) :: (L.prog ++ [(90 : ℚ)]), statusFail m, fullText,
          some (strTake fullText n), true, L.sent, [(pdfPath, ocrDpi)]⟩
    | .success =>
        ⟨(0 : ℚ) :: (L.prog ++ [(90 : ℚ), (100 : ℚ)]), statusDone outPath, fullText,
          some fullText, false, L.sent, [(pdfPath, ocrDpi)]⟩

/-- Synchronous branch of `run_ocr_process` (lines 564-631): rasterize the PDF
    at `ocrDpi`, set `total_pages` to the number of images, run the per-page
    loop, then persist.  `fs0` is the content at the output path before the run. -/
def runSync {Image : Type} (e : SyncEnv Image) (outPath : String)
    (fs0 : Option String) : RunOutcome :=
  mkSyncOutcome e.pdfPath outPath fs0 e.writeRes
    (syncLoop e.extract (e.rasterize e.pdfPath ocrDpi) 0
      (e.rasterize e.pdfPath ocrDpi).length "")

/-- Model of `load_pdf_preview` (lines 210-219): a separate rasterization pass
    at `previewDpi`, whose images populate `self.page_images`. -/
def load_pdf_preview {Image : Type} (rasterize : String → Nat → List Image)
    (path : String) : List Image :=
  rasterize path previewDpi

/-- Content of one result blob, as the async branch consumes it:
    `download_as_text` may raise, `json.loads` may raise, otherwise
    `response_dict.get("responses", [])` is a list of response entries, each
    either carrying a `fullTextAnnotation` text or lacking that key. -/
inductive BlobPayload where
  | downloadRaises (msg : String)
  | invalidJson (msg : String)
  | responses (rs : List (Option String))
deriving DecidableEq

/-- One blob returned by `bucket.list_blobs(prefix=output_prefix)`. -/
structure Blob where
  name : String
  payload : BlobPayload
deriving DecidableEq

/-- The inner loop `for i, response in enumerate(response_dict.get("responses", []))`
    (lines 557-560): the index `i` counts every entry of the response list of
    the blob itself, and an entry carrying extracted text is rendered as the
    section numbered `i + 1`. -/
def blobTextFrom : Nat → List (Option String) → String
  | _, [] => ""
  | i, some t :: rs => pageSection (i + 1) t ++ blobTextFrom (i + 1) rs
  | i, none :: rs => blobTextFrom (i + 1) rs

/-- Text contributed by one blob: its response list enumerated from index 0. -/
def blobText (rs : List (Option String)) : String := blobTextFrom 0 rs

/-- The outer loop `for blob in output_files` (lines 548-560): blobs are
    consumed in enumeration order; a blob whose name does not end in `.json`
    is skipped; a raised download or parse error aborts the whole loop. -/
def collectBlobs : List Blob → String → Except String String
  | [], acc => .ok acc
  | b :: rest, acc =>
    if strEndsWith b.name jsonSuffix then
      match b.payload with
      | .downloadRaises m => .error m
      | .invalidJson m => .error m
      | .responses rs => collectBlobs rest (acc ++ blobText rs)
    else
      collectBlobs rest acc

/-- Environment of an asynchronous run: upload of the PDF to the bucket
    (line 485), submission of the batch request (line 532), the wait
    `operation.result(timeout=300)` (line 538) whose raise covers the timeout,
    the blob listing under the output prefix (line 544), and the behaviour of
    the truncate-then-write save step. -/
structure AsyncEnv where
  pdfPath : String
  upload : Except String Unit
  submit : Except String Unit
  waitResult : Except String Unit
  listing : List Blob
  writeRes : WriteStep

/-- Asynchronous branch of `run_ocr_process` (lines 472-631) with the
    progress values the source sets at each stage (20 after upload, 40 after
    submission, 70 after the wait, 90 before the write, 100 after); any raise
    falls into the single catch-all handler, and a raise before the save step
    leaves the file untouched, while the save step itself has the
    truncate-then-write behaviour of `WriteStep`. -/
def runAsync (e : AsyncEnv) (outPath : String) (fs0 : Option String) : RunOutcome :=
  match e.upload with
  | .error m => ⟨[0], statusFail m, "", fs0, true, [], []⟩
  | .ok _ =>
    match e.submit with
    | .error m => ⟨[0, 20], statusFail m, "", fs0, true, [], []⟩
    | .ok _ =>
      match e.waitResult with
      | .error m => ⟨[0, 20, 40], statusFail m, "", fs0, true, [], []⟩
      | .ok _ =>
        match collectBlobs e.listing "" with
        | .error m => ⟨[0, 20, 40, 70], statusFail m, "", fs0, true, [], []⟩
        | .ok fullText =>
          match e.writeRes with
          | .openRaises m =>
              ⟨[0, 20, 40, 70, 90], statusFail m, fullText, fs0, true, [], []⟩
          | .writeRaises m n =>
              ⟨[0, 20, 40, 70, 90], statusFail m, fullText,
                some (strTake fullText n), true, [], []⟩
          | .success =>
              ⟨[0, 20, 40, 70, 90, 100], statusDone outPath, fullText,
                some fullText, false, [], []⟩

/-- Inputs `start_ocr` (lines 423-456) can observe before spawning the
    worker thread.  `outputWritable` records whether the output target could
    actually be written — the source never looks at it. -/
structure StartEnv where
  pdfPath : String
  pdfExists : Bool
  useAsync : Bool
  bucketName : String
  outputWritable : Bool
deriving DecidableEq

/-- Result of `start_ocr`: one of the three synchronous error dialogs, or the
    spawn of the background OCR thread (line 456). -/
inductive StartResult where
  | errNoPdfSelected
  | errPdfNotFound
  | errNoBucket
  | dispatched
deriving DecidableEq

/-- Model of `start_ocr` (lines 423-456): empty path check, existence check,
    bucket check in async mode, then the thread is started.  No check touches
    the output target. -/
def startOcr (e : StartEnv) : StartResult :=
  if e.pdfPath = "" then .errNoPdfSelected
  else if e.pdfExists = false then .errPdfNotFound
  else if e.useAsync = true ∧ e.bucketName = "" then .errNoBucket
  else .dispatched

/-- Progress values set during a fully successful synchronous run over `N`
    pages: the initial 0 from `start_ocr`, then `(i / N) * 100` before each
    page, then 90 before the write and 100 after it. -/
def syncTrace (N : Nat) : List ℚ :=
  (0 : ℚ) :: ((List.range N).map (fun k : ℕ => (k : ℚ) / (N : ℚ) * 100) ++ [(90 : ℚ), (100 : ℚ)])

/-- Progress values set during a fully successful asynchronous run. -/
def asyncTraceOk : List ℚ := [0, 20, 40, 70, 90, 100]

/-- A list of progress values is monotonically non-decreasing. -/
def nondecrP : List ℚ → Prop
  | [] => True
  | [_] => True
  | a :: b :: rest => a ≤ b ∧ nondecrP (b :: rest)

/-- Result blobs used by the concrete counterexamples: with `batch_size=1` a
    two-page document yields two result blobs, each holding the single
    response for its page. -/
def blobPageA : Blob := ⟨"vision_output/output-1-to-1.json", .responses [some "alpha"]⟩

/-- Second result blob, holding the single response for page two. -/
def blobPageB : Blob := ⟨"vision_output/output-2-to-2.json", .responses [some "beta"]⟩

/-- Async environment whose listing enumerates the two result blobs in page order. -/
def asyncEnvAB : AsyncEnv := ⟨"doc.pdf", .ok (), .ok (), .ok (), [blobPageA, blobPageB], .success⟩

/-- The same environment with the blob listing enumerated in the other order. -/
def asyncEnvBA : AsyncEnv := ⟨"doc.pdf", .ok (), .ok (), .ok (), [blobPageB, blobPageA], .success⟩

/-- Async environment whose wait on `operation.result(timeout=300)` raises. -/
def asyncTimeoutEnv : AsyncEnv := ⟨"doc.pdf", .ok (), .ok (), .error "boom", [], .success⟩

/-- Async environment whose listing under the output prefix is empty. -/
def asyncEmptyEnv : AsyncEnv := ⟨"doc.pdf", .ok (), .ok (), .ok (), [], .success⟩

/-- Async environment with one result blob whose payload is not valid JSON. -/
def asyncBadJsonEnv : AsyncEnv :=
  ⟨"doc.pdf", .ok (), .ok (), .ok (),
    [⟨"vision_output/output-bad.json", .invalidJson "Expecting value"⟩], .success⟩

/-- Async environment whose run reaches the save step with one result blob,
    but whose write raises after zero characters were flushed (for instance,
    the disk filled up right after `open` truncated the file). -/
def asyncDiskFullEnv : AsyncEnv :=
  ⟨"doc.pdf", .ok (), .ok (), .ok (), [blobPageA],
    .writeRaises "No space left on device" 0⟩

/-- Synchronous environment over a three-page document whose extraction call
    raises `boom` on the page holding image `k` (0-based). -/
def syncFailEnvAt (k : Nat) : SyncEnv Nat :=
  ⟨"doc.pdf", fun _ _ => [0, 1, 2],
    fun im => if im = k then Except.error "boom" else Except.ok "text",
    WriteStep.success, []⟩

/-- Synchronous environment over a sixteen-page document where every call
    succeeds. -/
def sync16Env : SyncEnv Unit :=
  ⟨"doc.pdf", fun _ _ => List.replicate 16 (), fun _ => Except.ok "p", WriteStep.success, []⟩

/-- Synchronous environment over a three-page document where every call succeeds. -/
def sync3Env : SyncEnv Unit :=
  ⟨"doc.pdf", fun _ _ => [(), (), ()], fun _ => Except.ok "p", WriteStep.success, []⟩

/-- Start environment: the PDF exists, synchronous mode, but the output target
    is not writable. -/
def startEnvUnwritableOut : StartEnv := ⟨"doc.pdf", true, false, "", false⟩

/-- Shifting the enumeration index by one step commutes with `List.range`. -/
lemma rangeMapStep (i total n : Nat) :
    ((i : ℚ) / (total : ℚ) * 100) ::
        (List.range n).map (fun k => (((i + 1) + k : ℕ) : ℚ) / (total : ℚ) * 100) =
      (List.range (n + 1)).map (fun k => ((i + k : ℕ) : ℚ) / (total : ℚ) * 100) := by
  rw [List.range_succ_eq_map]
  simp only [List.map_cons, List.map_map, Function.comp]
  have h0 : ∀ k : Nat, i + 1 + k = i + (k + 1) := fun k => by omega
  simp [h0]

/-- Characterization of the per-page loop when every remote call succeeds:
    the pages are sent in index order, the progress values follow the
    `(index / total) * 100` formula, and the accumulated text is the ordered
    concatenation of consecutively numbered sections. -/
lemma syncLoop_allOk {Image : Type} (f : Image → Except String String)
    (textOf : Image → String) (hf : ∀ im, f im = Except.ok (textOf im)) :
    ∀ (imgs : List Image) (i total : Nat) (acc : String),
      syncLoop f imgs i total acc =
        ⟨(List.range imgs.length).map (fun k => ((i + k : ℕ) : ℚ) / (total : ℚ) * 100),
         List.range' (i + 1) imgs.length,
         Except.ok (acc ++ sectionsFrom (i + 1) (imgs.map textOf))⟩ := by
  intro imgs
  induction imgs with
  | nil =>
    intro i total acc
    simp [syncLoop, sectionsFrom, String.append_empty]
  | cons img rest ih =>
    intro i total acc
    simp only [syncLoop, hf img, ih, List.length_cons, List.map_cons, LoopOut.mk.injEq]
    refine ⟨rangeMapStep i total rest.length, rfl, ?_⟩
    simp [sectionsFrom, String.append_assoc]

/-- Whenever the per-page loop ends without a raised exception, every page was
    processed and the progress values follow the full formula. -/
lemma syncLoop_prog_of_ok {Image : Type} (f : Image → Except String String) :
    ∀ (imgs : List Image) (i total : Nat) (acc : String),
      (syncLoop f imgs i total acc).result.isOk = true →
      (syncLoop f imgs i total acc).prog =
        (List.range imgs.length).map (fun k => ((i + k : ℕ) : ℚ) / (total : ℚ) * 100) := by
  intro imgs
  induction imgs with
  | nil => intro i total acc _; simp [syncLoop]
  | cons img rest ih =>
    intro i total acc h
    cases hf : f img with
    | error m => rw [syncLoop] at h; simp [hf, Except.isOk, Except.toBool] at h
    | ok t =>
      rw [syncLoop] at h ⊢
      simp only [hf, List.length_cons] at h ⊢
      rw [ih (i + 1) total (acc ++ pageSection (i + 1) t) h]
      exact rangeMapStep i total rest.length

/-- Projection fact: every branch of the synchronous epilogue records exactly
    one rasterization call, at the OCR resolution. -/
lemma mkSyncOutcome_rasterTrace (p o : String) (fs0 : Option String)
    (w : WriteStep) (L : LoopOut) :
    (mkSyncOutcome p o fs0 w L).rasterTrace = [(p, ocrDpi)] := by
  rcases L with ⟨ps, snt, res⟩
  cases res <;> cases w <;> rfl

/-- Projection fact: the synchronous epilogue writes the extracted text
    exactly on the completing branch; every failing branch leaves the file
    unchanged except a raise from `write` itself, which leaves the flushed
    prefix of the text (the file was truncated by `open` first). -/
lemma mkSyncOutcome_write (p o : String) (fs0 : Option String)
    (w : WriteStep) (L : LoopOut) :
    ((mkSyncOutcome p o fs0 w L).failed = false →
        (mkSyncOutcome p o fs0 w L).fileContent =
          some (mkSyncOutcome p o fs0 w L).extracted) ∧
    ((mkSyncOutcome p o fs0 w L).failed = true →
        (mkSyncOutcome p o fs0 w L).fileContent = fs0 ∨
        ∃ m n, w = WriteStep.writeRaises m n ∧
          (mkSyncOutcome p o fs0 w L).fileContent =
            some (strTake (mkSyncOutcome p o fs0 w L).extracted n)) := by
  rcases L with ⟨ps, snt, res⟩
  cases res with
  | error m => cases w <;> simp [mkSyncOutcome]
  | ok t =>
    cases w with
    | openRaises m => simp [mkSyncOutcome]
    | writeRaises m n =>
      refine ⟨fun h => ?_, fun _ => Or.inr ⟨m, n, rfl, rfl⟩⟩
      simp [mkSyncOutcome] at h
    | success => simp [mkSyncOutcome]

/-- A listing in which no blob name ends in `.json` leaves the collection
    loop a no-op: every blob takes the skip branch. -/
lemma collectBlobs_skipAll :
    ∀ (l : List Blob), (∀ b ∈ l, strEndsWith b.name jsonSuffix = false) →
      ∀ (acc : String), collectBlobs l acc = Except.ok acc := by
  intro l
  induction l with
  | nil => intro _ acc; rfl
  | cons b bs ih =>
    intro hall acc
    have hb : strEndsWith b.name jsonSuffix = false := hall b (List.mem_cons_self b bs)
    simp only [collectBlobs, hb, Bool.false_eq_true, if_false]
    exact ih (fun x hx => hall x (List.mem_cons_of_mem b hx)) acc

/-- A response list none of whose entries carries a `fullTextAnnotation`
    contributes no text: every entry takes the skip branch of the inner loop. -/
lemma blobTextFrom_skipNone :
    ∀ (rs : List (Option String)), (∀ x ∈ rs, x = none) →
      ∀ (i : Nat), blobTextFrom i rs = "" := by
  intro rs
  induction rs with
  | nil => intro _ i; rfl
  | cons x xs ih =>
    intro hall i
    have hx : x = none := hall x (List.mem_cons_self x xs)
    subst hx
    exact ih (fun y hy => hall y (List.mem_cons_of_mem none hy)) (i + 1)

/-- C1: the claim says the assembled Async output is the same, and ordered
    1..N, for every permutation of the blob listing.  In the code the page
    index comes from the position inside the response list of each blob and
    blobs are consumed in enumeration order, so listing the same two result
    blobs in the other order yields a different assembled text, and neither
    text carries the indices 1..2. -/
theorem asyncOrderDependsOnListing :
    (runAsync asyncEnvAB "out.txt" none).failed = false ∧
    (runAsync asyncEnvAB "out.txt" none).extracted =
      pageSection 1 "alpha" ++ pageSection 1 "beta" ∧
    (runAsync asyncEnvBA "out.txt" none).extracted =
      pageSection 1 "beta" ++ pageSection 1 "alpha" ∧
    (runAsync asyncEnvAB "out.txt" none).extracted ≠
      (runAsync asyncEnvBA "out.txt" none).extracted := by
  refine ⟨rfl, rfl, rfl, ?_⟩
  decide

/-- C7: all failure kinds are collapsed by the single catch-all handler into
    the one status string `エラーが発生しました: <str(e)>`: a synchronous
    extraction failure at page 2 and one at page 3 produce identical terminal
    statuses (no page index is attached), and an Async wait failure (the
    timeout kind) with the same exception text produces that same status (no
    distinct kind is surfaced). -/
theorem errorKindsCollapsed :
    (runSync (syncFailEnvAt 1) "out.txt" none).failed = true ∧
    (runSync (syncFailEnvAt 1) "out.txt" none).status = statusFail "boom" ∧
    (runSync (syncFailEnvAt 2) "out.txt" none).status =
      (runSync (syncFailEnvAt 1) "out.txt" none).status ∧
    (runAsync asyncTimeoutEnv "out.txt" none).status =
      (runSync (syncFailEnvAt 1) "out.txt" none).status :=
  ⟨rfl, rfl, rfl, rfl⟩

/-- C8: the claim says an empty result set fails the run.  In the code an
    empty blob listing under the output prefix makes the collection loop a
    no-op, so the run completes with empty extracted text and writes an empty
    output file. -/
theorem asyncEmptyResultSilentlyCompletes :
    (runAsync asyncEmptyEnv "out.txt" none).failed = false ∧
    (runAsync asyncEmptyEnv "out.txt" none).extracted = "" ∧
    (runAsync asyncEmptyEnv "out.txt" none).fileContent = some "" :=
  ⟨rfl, rfl, rfl⟩

/-- C6: the claim says the sections of every completed run are numbered 1..N in
    ascending order.  A completed Async run over two single-response result
    blobs numbers both sections 1, so its text is not of that form. -/
theorem asyncSectionsNotOrdered :
    (runAsync asyncEnvAB "out.txt" none).failed = false ∧
    (runAsync asyncEnvAB "out.txt" none).extracted =
      pageSection 1 "alpha" ++ pageSection 1 "beta" ∧
    (runAsync asyncEnvAB "out.txt" none).extracted ≠
      pageSection 1 "alpha" ++ pageSection 2 "beta" := by
  refine ⟨rfl, rfl, ?_⟩
  decide

/-- C5: the claim says a non-writable output target is rejected with an input
    error before dispatch.  `start_ocr` never inspects the output target: with
    an existing PDF in synchronous mode it spawns the background thread even
    though the output target is not writable. -/
theorem startIgnoresOutputWritability :
    startEnvUnwritableOut.outputWritable = false ∧
    startOcr startEnvUnwritableOut = StartResult.dispatched :=
  ⟨rfl, rfl⟩

/-- C5 (amended): `start_ocr` dispatches the background thread exactly when
    the PDF path is non-empty, the file exists, and, in Async mode, the bucket
    name is non-empty; the three failing checks return synchronously without
    dispatch, and no check involves the output target. -/
theorem startPreconditionChecks :
    ∀ (e : StartEnv),
      startOcr e = StartResult.dispatched ↔
        (e.pdfPath ≠ "" ∧ e.pdfExists = true ∧
          (e.useAsync = true → e.bucketName ≠ "")) := by
  intro e
  rcases e with ⟨p, ex, ua, b, w⟩
  simp only [startOcr]
  split_ifs with h1 h2 h3
  · simp [h1]
  · simp [h2]
  · rcases h3 with ⟨hu, hb⟩
    simp [hu, hb]
  · have hex : ex = true := by
      cases ex
      · exact absurd rfl h2
      · rfl
    constructor
    · intro _
      exact ⟨h1, hex, fun hu hb => h3 ⟨hu, hb⟩⟩
    · intro _
      rfl

/-- C9: the OCR pass rasterizes at 300 DPI, strictly above the 100 DPI of the
    preview pass; every synchronous run performs exactly one fresh rasterization
    call at the OCR resolution, and its outcome is independent of whatever
    preview images are cached in the application state. -/
theorem ocrRasterizationIndependent :
    previewDpi = 100 ∧ ocrDpi = 300 ∧ previewDpi < ocrDpi ∧
    (∀ (Image : Type) (e : SyncEnv Image) (o : String) (fs0 : Option String),
        (runSync e o fs0).rasterTrace = [(e.pdfPath, ocrDpi)]) ∧
    (∀ (Image : Type) (rast : String → Nat → List Image)
        (ext : Image → Except String String) (w : WriteStep)
        (c₁ c₂ : List Image) (path o : String) (fs0 : Option String),
        runSync ⟨path, rast, ext, w, c₁⟩ o fs0 = runSync ⟨path, rast, ext, w, c₂⟩ o fs0) ∧
    (∀ (Image : Type) (rast : String → Nat → List Image) (path : String),
        load_pdf_preview rast path = rast path previewDpi) := by
  refine ⟨rfl, rfl, by decide, ?_, ?_, fun Image rast path => rfl⟩
  · intro Image e o fs0
    exact mkSyncOutcome_rasterTrace e.pdfPath o fs0 e.writeRes _
  · intro Image rast ext w c₁ c₂ path o fs0
    rfl

/-- C10: the batch request fixes `batch_size = 1`, and the page number
    rendered for a fragment is its 1-based position inside the response list
    of the blob holding it: a blob whose first response carries text renders it
    as section 1, and the contribution of each blob to the accumulated text is
    computed from index 0 regardless of the blobs already consumed, so the
    numbering restarts at 1 for every result blob. -/
theorem batchNumberingPerBlob :
    visionBatchSize = 1 ∧
    (∀ (t : String) (rs : List (Option String)),
        blobText (some t :: rs) = pageSection 1 t ++ blobTextFrom 1 rs) ∧
    (∀ (nm : String) (rs : List (Option String)) (bs : List Blob) (acc : String),
        strEndsWith nm jsonSuffix = true →
          collectBlobs (⟨nm, BlobPayload.responses rs⟩ :: bs) acc =
            collectBlobs bs (acc ++ blobText rs)) := by
  refine ⟨rfl, fun t rs => rfl, fun nm rs bs acc h => ?_⟩
  simp [collectBlobs, h]

/-- Witness for C10 at a concrete blob name and payload. -/
theorem batchNumberingPerBlobWitness :
    collectBlobs [⟨"vision_output/output-1-to-1.json", BlobPayload.responses [some "x"]⟩] "" =
      collectBlobs [] ("" ++ blobText [some "x"]) :=
  batchNumberingPerBlob.2.2 "vision_output/output-1-to-1.json" [some "x"] [] "" (by decide)

/-- C3: in a synchronous run in which every remote call succeeds, the pages
    are sent to the remote client strictly sequentially in index order
    (the trace of sent page numbers is exactly 1..N), and the assembled text
    is the concatenation of the N page sections numbered 1..N in ascending
    order. -/
theorem syncSequentialOrdered :
    ∀ (Image : Type) (rast : String → Nat → List Image) (textOf : Image → String)
      (w : WriteStep) (c : List Image) (path o : String) (fs0 : Option String),
      (runSync ⟨path, rast, fun im => Except.ok (textOf im), w, c⟩ o fs0).sent =
        List.range' 1 (rast path ocrDpi).length ∧
      (runSync ⟨path, rast, fun im => Except.ok (textOf im), w, c⟩ o fs0).extracted =
        sectionsFrom 1 ((rast path ocrDpi).map textOf) := by
  intro Image rast textOf w c path o fs0
  dsimp only [runSync]
  rw [syncLoop_allOk (fun im => Except.ok (textOf im)) textOf (fun im => rfl)]
  cases w <;> simp [mkSyncOutcome, String.empty_append]

/-- C4: the claim says every failing run leaves any pre-existing content at
    the output path unchanged and that the write is atomic.  The save step is
    `open(output_path, "w")` then `f.write(...)`: `open` truncates the file
    before the write, so an Async run that reaches the save step and whose
    write raises immediately (disk full) ends failed with the pre-existing
    content destroyed — the file now holds the empty flushed prefix, not the
    prior text. -/
theorem writeFailureTruncatesOutput :
    (runAsync asyncDiskFullEnv "out.txt" (some "prior")).failed = true ∧
    (runAsync asyncDiskFullEnv "out.txt" (some "prior")).fileContent = some "" ∧
    (runAsync asyncDiskFullEnv "out.txt" (some "prior")).fileContent ≠ some "prior" := by
  refine ⟨rfl, rfl, ?_⟩
  decide

/-- C4 (amended): in both modes, a run that completes has written exactly the
    extracted text, and a run that fails leaves the output path unchanged in
    every case except a raise from the write call itself, which leaves the
    file truncated to the flushed prefix of the text (because `open` in mode
    `w` truncates before `write` runs — the write is not atomic); in
    particular any failure raised before the save step, including an Async
    timeout, leaves pre-existing content untouched and writes no output. -/
theorem outputWrittenOnlyOnCompletion :
    (∀ (Image : Type) (e : SyncEnv Image) (o : String) (fs0 : Option String),
        ((runSync e o fs0).failed = false →
            (runSync e o fs0).fileContent = some (runSync e o fs0).extracted) ∧
        ((runSync e o fs0).failed = true →
            (runSync e o fs0).fileContent = fs0 ∨
            ∃ m n, e.writeRes = WriteStep.writeRaises m n ∧
              (runSync e o fs0).fileContent =
                some (strTake (runSync e o fs0).extracted n))) ∧
    (∀ (e : AsyncEnv) (o : String) (fs0 : Option String),
        ((runAsync e o fs0).failed = false →
            (runAsync e o fs0).fileContent = some (runAsync e o fs0).extracted) ∧
        ((runAsync e o fs0).failed = true →
            (runAsync e o fs0).fileContent = fs0 ∨
            ∃ m n, e.writeRes = WriteStep.writeRaises m n ∧
              (runAsync e o fs0).fileContent =
                some (strTake (runAsync e o fs0).extracted n)) ∧
        (∀ m, e.waitResult = Except.error m →
            (runAsync e o fs0).failed = true ∧ (runAsync e o fs0).fileContent = fs0)) := by
  constructor
  · intro Image e o fs0
    exact mkSyncOutcome_write e.pdfPath o fs0 e.writeRes _
  · intro e o fs0
    rcases e with ⟨p, u, su, wv, l, wr⟩
    refine ⟨?_, ?_, ?_⟩
    · cases u <;> cases su <;> cases wv <;> cases hc : collectBlobs l "" <;> cases wr <;>
        simp [runAsync, hc]
    · cases u <;> cases su <;> cases wv <;> cases hc : collectBlobs l "" <;> cases wr <;>
        (simp [runAsync, hc]
         try exact Or.inr ⟨_, _, ⟨rfl, rfl⟩, rfl⟩)
    · intro m hm
      subst hm
      cases u <;> cases su <;> simp [runAsync]

/-- Witness for C4: an Async run whose wait raises (the timeout case) ends
    failed with the pre-existing output file content untouched. -/
theorem outputWrittenOnlyOnCompletionWitness :
    (runAsync asyncTimeoutEnv "out.txt" (some "prior")).failed = true ∧
    (runAsync asyncTimeoutEnv "out.txt" (some "prior")).fileContent = some "prior" :=
  (outputWrittenOnlyOnCompletion.2 asyncTimeoutEnv "out.txt" (some "prior")).2.2 "boom" rfl

/-- C6 (amended): the text of a completed synchronous run is exactly the page
    sections numbered 1..N in ascending order and the file holds exactly the
    in-process string; a completed asynchronous run also writes exactly its
    in-process string (its section numbering restarts per blob, as the
    counterexample shows). -/
theorem completedRunOutputForm :
    (∀ (Image : Type) (rast : String → Nat → List Image) (textOf : Image → String)
        (c : List Image) (path o : String) (fs0 : Option String),
        (runSync ⟨path, rast, fun im => Except.ok (textOf im), WriteStep.success, c⟩ o fs0).failed
            = false ∧
        (runSync ⟨path, rast, fun im => Except.ok (textOf im), WriteStep.success, c⟩ o fs0).extracted
            = sectionsFrom 1 ((rast path ocrDpi).map textOf) ∧
        (runSync ⟨path, rast, fun im => Except.ok (textOf im), WriteStep.success, c⟩ o fs0).fileContent
            = some ((runSync ⟨path, rast, fun im => Except.ok (textOf im), WriteStep.success, c⟩
                o fs0).extracted)) ∧
    (∀ (e : AsyncEnv) (o : String) (fs0 : Option String),
        (runAsync e o fs0).failed = false →
          (runAsync e o fs0).fileContent = some ((runAsync e o fs0).extracted)) := by
  constructor
  · intro Image rast textOf c path o fs0
    dsimp only [runSync]
    rw [syncLoop_allOk (fun im => Except.ok (textOf im)) textOf (fun im => rfl)]
    simp [mkSyncOutcome, String.empty_append]
  · intro e o fs0 h
    rcases e with ⟨p, u, su, wv, l, wr⟩
    cases u <;> cases su <;> cases wv <;> cases hc : collectBlobs l "" <;> cases wr <;>
      simp [runAsync, hc] at h ⊢

/-- Witness for C6 at a concrete completed Async run. -/
theorem completedRunOutputFormWitness :
    (runAsync asyncEnvAB "out.txt" none).fileContent =
      some ((runAsync asyncEnvAB "out.txt" none).extracted) :=
  completedRunOutputForm.2 asyncEnvAB "out.txt" none rfl

/-- C8 (amended): a result blob whose payload fails JSON parsing aborts the
    collection loop, and a run whose collection loop raises ends failed with
    the output file untouched; but a run whose result set is empty or
    malformed without raising silently completes with empty output written:
    an empty listing, a listing in which no blob name ends in `.json`, and a
    single result blob whose payload parses but carries no
    `fullTextAnnotation` entry (including an empty or missing `responses`
    list) all complete with empty extracted text. -/
theorem asyncMalformedHandling :
    (∀ (m : String) (bs : List Blob) (acc : String),
        collectBlobs (⟨"vision_output/output-bad.json", BlobPayload.invalidJson m⟩ :: bs) acc =
          Except.error m) ∧
    (∀ (e : AsyncEnv) (o : String) (fs0 : Option String) (m : String),
        collectBlobs e.listing "" = Except.error m →
          (runAsync e o fs0).failed = true ∧ (runAsync e o fs0).fileContent = fs0) ∧
    (∀ (path o : String) (fs0 : Option String),
        (runAsync ⟨path, Except.ok (), Except.ok (), Except.ok (), [], WriteStep.success⟩
            o fs0).failed = false ∧
        (runAsync ⟨path, Except.ok (), Except.ok (), Except.ok (), [], WriteStep.success⟩
            o fs0).extracted = "") ∧
    (∀ (l : List Blob), (∀ b ∈ l, strEndsWith b.name jsonSuffix = false) →
        ∀ (path o : String) (fs0 : Option String),
          (runAsync ⟨path, Except.ok (), Except.ok (), Except.ok (), l, WriteStep.success⟩
              o fs0).failed = false ∧
          (runAsync ⟨path, Except.ok (), Except.ok (), Except.ok (), l, WriteStep.success⟩
              o fs0).extracted = "") ∧
    (∀ (nm : String) (rs : List (Option String)),
        strEndsWith nm jsonSuffix = true → (∀ x ∈ rs, x = none) →
        ∀ (path o : String) (fs0 : Option String),
          (runAsync ⟨path, Except.ok (), Except.ok (), Except.ok (),
              [⟨nm, BlobPayload.responses rs⟩], WriteStep.success⟩ o fs0).failed = false ∧
          (runAsync ⟨path, Except.ok (), Except.ok (), Except.ok (),
              [⟨nm, BlobPayload.responses rs⟩], WriteStep.success⟩ o fs0).extracted = "") := by
  refine ⟨?_, ?_, fun path o fs0 => ⟨rfl, rfl⟩, ?_, ?_⟩
  · intro m bs acc
    simp [collectBlobs,
      show strEndsWith "vision_output/output-bad.json" jsonSuffix = true from by decide]
  · intro e o fs0 m hc
    rcases e with ⟨p, u, su, wv, l, wr⟩
    simp only at hc
    cases u <;> cases su <;> cases wv <;> cases wr <;> simp [runAsync, hc]
  · intro l hall path o fs0
    have hc : collectBlobs l "" = Except.ok "" := collectBlobs_skipAll l hall ""
    constructor <;> simp [runAsync, hc]
  · intro nm rs hnm hnone path o fs0
    have hb : blobText rs = "" := blobTextFrom_skipNone rs hnone 0
    have hc : collectBlobs [⟨nm, BlobPayload.responses rs⟩] "" = Except.ok "" := by
      simp [collectBlobs, hnm, hb, String.append_empty]
    constructor <;> simp [runAsync, hc]

/-- Witness for C8 at a concrete Async run holding one invalid-JSON blob, and
    at one holding a single parsed blob with no `fullTextAnnotation` entry. -/
theorem asyncMalformedHandlingWitness :
    ((runAsync asyncBadJsonEnv "out.txt" (some "prior")).failed = true ∧
      (runAsync asyncBadJsonEnv "out.txt" (some "prior")).fileContent = some "prior") ∧
    ((runAsync ⟨"doc.pdf", Except.ok (), Except.ok (), Except.ok (),
        [⟨"vision_output/output-1-to-1.json", BlobPayload.responses [none]⟩],
        WriteStep.success⟩ "out.txt" none).failed = false ∧
      (runAsync ⟨"doc.pdf", Except.ok (), Except.ok (), Except.ok (),
        [⟨"vision_output/output-1-to-1.json", BlobPayload.responses [none]⟩],
        WriteStep.success⟩ "out.txt" none).extracted = "") :=
  ⟨asyncMalformedHandling.2.1 asyncBadJsonEnv "out.txt" (some "prior") "Expecting value" rfl,
   asyncMalformedHandling.2.2.2.2 "vision_output/output-1-to-1.json" [none]
     (by decide) (by decide) "doc.pdf" "out.txt" none⟩

/-- C2: the claim says no per-page update exceeds the later persistence-stage
    value, making the whole sequence non-decreasing.  The per-page update is
    `(i / total_pages) * 100` on the full scale, so a successful synchronous
    run over sixteen pages emits 93.75 for its last page and then drops to 90
    at the persistence stage: the progress sequence is not non-decreasing. -/
theorem syncProgressNotMonotone :
    (runSync sync16Env "out.txt" none).failed = false ∧
    (runSync sync16Env "out.txt" none).progress = syncTrace 16 ∧
    ¬ nondecrP (syncTrace 16) := by
  refine ⟨rfl, ?_, ?_⟩
  · dsimp only [runSync, sync16Env]
    rw [syncLoop_allOk (fun _ : Unit => Except.ok "p") (fun _ => "p") (fun _ => rfl)]
    dsimp only [mkSyncOutcome]
    simp only [List.length_replicate, Nat.zero_add]
    exact rfl
  · intro h
    norm_num [syncTrace, List.range_succ, nondecrP] at h

/-- C2 (amended): every successful Async run emits exactly the progress
    sequence 0, 20, 40, 70, 90, 100, which is non-decreasing; every
    successful Sync run over N pages emits exactly 0, then (i/N)*100 for
    i = 0..N-1 on the full 0-100 scale, then 90 and 100 — a sequence that
    always starts at 0 and ends at 100, and is non-decreasing whenever
    N <= 10 (the sixteen-page counterexample shows it need not be beyond). -/
theorem progressTraceShape :
    (∀ (e : AsyncEnv) (o : String) (fs0 : Option String),
        (runAsync e o fs0).failed = false → (runAsync e o fs0).progress = asyncTraceOk) ∧
    (∀ (Image : Type) (e : SyncEnv Image) (o : String) (fs0 : Option String),
        (runSync e o fs0).failed = false →
          (runSync e o fs0).progress = syncTrace ((e.rasterize e.pdfPath ocrDpi).length)) ∧
    (∀ N : Nat, N ≤ 10 → nondecrP (syncTrace N)) ∧
    (∀ N : Nat, (syncTrace N).head? = some 0 ∧ (syncTrace N).getLast? = some 100) ∧
    nondecrP asyncTraceOk := by
  refine ⟨?_, ?_, ?_, ?_, by norm_num [asyncTraceOk, nondecrP]⟩
  · intro e o fs0 h
    rcases e with ⟨p, u, su, wv, l, wr⟩
    cases u <;> cases su <;> cases wv <;> cases hc : collectBlobs l "" <;> cases wr <;>
      simp [runAsync, hc, asyncTraceOk] at h ⊢
  · intro Image e o fs0 h
    rcases e with ⟨p, rast, ext, wres, c⟩
    dsimp only [runSync] at h ⊢
    rcases hL : syncLoop ext (rast p ocrDpi) 0 (rast p ocrDpi).length "" with ⟨ps, snt, res⟩
    rw [hL] at h
    cases res with
    | error m => simp [mkSyncOutcome] at h
    | ok ft =>
      cases wres with
      | openRaises m => simp [mkSyncOutcome] at h
      | writeRaises m n => simp [mkSyncOutcome] at h
      | success =>
        have hOk :
            (syncLoop ext (rast p ocrDpi) 0 (rast p ocrDpi).length "").result.isOk = true := by
          rw [hL]
          rfl
        have hp := syncLoop_prog_of_ok ext (rast p ocrDpi) 0 (rast p ocrDpi).length "" hOk
        rw [hL] at hp
        dsimp only at hp
        dsimp only [mkSyncOutcome]
        rw [hp]
        simp only [Nat.zero_add]
        exact rfl
  · intro N hN
    interval_cases N <;> norm_num [syncTrace, List.range_succ, nondecrP]
  · intro N
    refine ⟨rfl, ?_⟩
    have h :
        syncTrace N =
          ((0 : ℚ) :: ((List.range N).map (fun k : ℕ => (k : ℚ) / (N : ℚ) * 100) ++ [(90 : ℚ)]))
            ++ [(100 : ℚ)] := by
      simp [syncTrace]
    rw [h, List.getLast?_concat]

/-- Witness for C2 at a concrete successful Async run, a concrete successful
    three-page Sync run, and the bound 3 <= 10. -/
theorem progressTraceShapeWitness :
    (runAsync asyncEnvAB "out.txt" none).progress = asyncTraceOk ∧
    (runSync sync3Env "out.txt" none).progress =
      syncTrace ((sync3Env.rasterize sync3Env.pdfPath ocrDpi).length) ∧
    nondecrP (syncTrace 3) :=
  ⟨progressTraceShape.1 asyncEnvAB "out.txt" none rfl,
   progressTraceShape.2.1 Unit sync3Env "out.txt" none rfl,
   progressTraceShape.2.2.1 3 (by decide)⟩

end PdfOcr
